import Mathlib

/-!
Shallow embedding of the catears dashboard state model and its
serialization/sync logic (src/dash/src/types/catears.ts,
src/dash/src/store/catears-store.ts, src/dash/src/components/StatePreview.tsx,
src/dash/src/middleware.ts, src/dash/src/app/api/upload-state/route.ts),
together with theorems settling the frozen claims about it.
-/

/-- The `RGB8`: three independent 8-bit channels (types/catears.ts). -/
structure RGB8 where
  r : Nat
  g : Nat
  b : Nat
deriving DecidableEq

/-- The `ChasePattern` (types/catears.ts). -/
structure ChasePattern where
  color : RGB8
  background : RGB8
  length : Nat
  speed_ms : Nat
  clockwise : Bool
deriving DecidableEq

/-- The `PulsePattern` (types/catears.ts). -/
structure PulsePattern where
  color : RGB8
  min_brightness : Nat
  max_brightness : Nat
  period_ms : Nat
deriving DecidableEq

/-- The `RainbowPattern` (types/catears.ts). -/
structure RainbowPattern where
  speed_ms : Nat
  spread : Bool
  brightness : Nat
deriving DecidableEq

/-- The `LedPattern` (types/catears.ts): `leds` is a plain array of RGB values
(the TS type carries no length constraint; the comment says 12). -/
structure LedPattern where
  leds : List RGB8
  looping : Bool
deriving DecidableEq

/-- The `LightMode` tagged union (types/catears.ts). -/
inductive LightMode where
  | Off : LightMode
  | Solid (c : RGB8) : LightMode
  | Gradient (a b : RGB8) : LightMode
  | Chase (p : ChasePattern) : LightMode
  | Pulse (p : PulsePattern) : LightMode
  | Rainbow (p : RainbowPattern) : LightMode
  | Custom (p : LedPattern) : LightMode
deriving DecidableEq

/-- The `Note` (types/catears.ts): `volume` is an optional key. -/
structure Note where
  frequency : Nat
  duration_ms : Nat
  volume : Option Nat
deriving DecidableEq

/-- The `ChiptuneSequence` (types/catears.ts). -/
structure ChiptuneSequence where
  notes : List Note
  length : Nat
  default_volume : Nat
  looping : Bool
deriving DecidableEq

/-- The `AudioClip` (types/catears.ts). -/
structure AudioClip where
  sample_rate : Nat
  bits_per_sample : Nat
  is_stereo : Bool
  looping : Bool
deriving DecidableEq

/-- The `AudioMode` tagged union (types/catears.ts). -/
inductive AudioMode where
  | Silent : AudioMode
  | Tone (n : Note) : AudioMode
  | Chiptune (c : ChiptuneSequence) : AudioMode
  | Audio (a : AudioClip) : AudioMode
deriving DecidableEq

/-- Payload of the `Sweep` servo variant, as built in ServoControl.tsx. -/
structure SweepPattern where
  min : Nat
  max : Nat
  speed_ms : Nat
deriving DecidableEq

/-- Payload of the `Twitch` servo variant, as built in ServoControl.tsx. -/
structure TwitchPattern where
  center : Nat
  amplitude : Nat
  interval_ms : Nat
deriving DecidableEq

/-- The tagged servo variants constructed by ServoControl.tsx:
`{ Static: n }`, `{ Sweep: {...} }`, `{ Twitch: {...} }`. -/
inductive ServoMode where
  | Static (position : Nat) : ServoMode
  | Sweep (p : SweepPattern) : ServoMode
  | Twitch (p : TwitchPattern) : ServoMode
deriving DecidableEq

/-- The runtime values held in `state.servos.left` / `state.servos.right`.
The TS interface `Servos` (types/catears.ts) declares each side as a bare
`number` (and `createDefaultState` stores the bare number `125`), while the
servo mutation handlers store tagged `ServoMode` objects; at runtime a side
therefore holds either a bare number or a single-key tagged object. -/
inductive ServoValue where
  | num (n : Nat) : ServoValue
  | tagged (m : ServoMode) : ServoValue
deriving DecidableEq

/-- True exactly when the servo value serializes as a single-key tagged
variant object rather than a bare JSON number. -/
def isTaggedServo : ServoValue → Bool
  | .num _ => false
  | .tagged _ => true

/-- The `Servos` pair (types/catears.ts). -/
structure Servos where
  left : ServoValue
  right : ServoValue
deriving DecidableEq

/-- The `Lights` (types/catears.ts). -/
structure Lights where
  left : LightMode
  right : LightMode
  brightness : Nat
deriving DecidableEq

/-- The `Speakers` (types/catears.ts). -/
structure Speakers where
  mode : AudioMode
  volume : Nat
deriving DecidableEq

/-- The `State`: the root Configuration (types/catears.ts). -/
structure State where
  servos : Servos
  lights : Lights
  speakers : Speakers
deriving DecidableEq

/-- The `EarSelection` (types/catears.ts). -/
inductive EarSelection where
  | left : EarSelection
  | right : EarSelection
  | both : EarSelection
deriving DecidableEq

/-- The `createDefaultState` (types/catears.ts): both servos the bare number 125,
both lights a red Pulse 0-255 over 250ms, brightness 255, speakers Silent at
volume 128. -/
def createDefaultState : State :=
  { servos := { left := .num 125, right := .num 125 }
    lights :=
      { left := .Pulse { color := { r := 255, g := 0, b := 0 },
                         min_brightness := 0, max_brightness := 255,
                         period_ms := 250 }
        right := .Pulse { color := { r := 255, g := 0, b := 0 },
                          min_brightness := 0, max_brightness := 255,
                          period_ms := 250 }
        brightness := 255 }
    speakers := { mode := .Silent, volume := 128 } }

/-- A backup slot entry (`leftBackup` / `rightBackup` in catears-store.ts). -/
structure EarBackup where
  servo : ServoValue
  light : LightMode
deriving DecidableEq

/-- The zustand store record (catears-store.ts): Configuration, ear
selection, and the two backup slots. -/
structure CatEarsStore where
  state : State
  earSelection : EarSelection
  leftBackup : Option EarBackup
  rightBackup : Option EarBackup
deriving DecidableEq

/-- The initial store record (catears-store.ts lines 46-49). -/
def initialStore : CatEarsStore :=
  { state := createDefaultState
    earSelection := .both
    leftBackup := none
    rightBackup := none }

/-- The `setEarSelection` (catears-store.ts lines 51-76): when moving from
`both` to an individual side, snapshot the servo+light of both sides into the
backup slots; every other transition only updates `earSelection` (the
second and third branches of the source both perform the same update). -/
def setEarSelection (s : CatEarsStore) (selection : EarSelection) : CatEarsStore :=
  if s.earSelection = .both ∧ selection ≠ .both then
    { s with
      earSelection := selection
      leftBackup := some { servo := s.state.servos.left, light := s.state.lights.left }
      rightBackup := some { servo := s.state.servos.right, light := s.state.lights.right } }
  else
    { s with earSelection := selection }

/-- The `syncToBothEars` (catears-store.ts lines 78-97): the active side is
`right` when the selection is `right`, otherwise `left`; its servo and light
values are copied onto both sides. -/
def syncToBothEars (s : CatEarsStore) : CatEarsStore :=
  let activeServo := if s.earSelection = .right then s.state.servos.right else s.state.servos.left
  let activeLight := if s.earSelection = .right then s.state.lights.right else s.state.lights.left
  { s with
    state :=
      { s.state with
        servos := { left := activeServo, right := activeServo }
        lights := { s.state.lights with left := activeLight, right := activeLight } } }

/-- The `setServoMode` (catears-store.ts lines 100-117): writes the mode into
the left side when the selection is `left` or `both`, and into the right
side when it is `right` or `both`. -/
def setServoMode (s : CatEarsStore) (mode : ServoValue) : CatEarsStore :=
  let s0 := s.state.servos
  let s1 := if s.earSelection = .left ∨ s.earSelection = .both then { s0 with left := mode } else s0
  let s2 := if s.earSelection = .right ∨ s.earSelection = .both then { s1 with right := mode } else s1
  { s with state := { s.state with servos := s2 } }

/-- The `setLightMode` (catears-store.ts lines 140-157): same selection logic as
`setServoMode`, over the light sides. -/
def setLightMode (s : CatEarsStore) (mode : LightMode) : CatEarsStore :=
  let l0 := s.state.lights
  let l1 := if s.earSelection = .left ∨ s.earSelection = .both then { l0 with left := mode } else l0
  let l2 := if s.earSelection = .right ∨ s.earSelection = .both then { l1 with right := mode } else l1
  { s with state := { s.state with lights := l2 } }

/-- The transformation `loadState` applies to the incoming Configuration-shaped value
(catears-store.ts lines 213-232): when the speakers mode is Chiptune, the
notes array is replaced by `notes.slice(0, length)`; everything else is
passed through unchanged. -/
def loadStateTransform (newState : State) : State :=
  { newState with
    speakers :=
      { newState.speakers with
        mode :=
          match newState.speakers.mode with
          | .Chiptune c => .Chiptune { c with notes := c.notes.take c.length }
          | m => m } }

/-- The `loadState` (catears-store.ts lines 213-232): replaces the whole
Configuration with the transformed input. -/
def loadState (s : CatEarsStore) (newState : State) : CatEarsStore :=
  { s with state := loadStateTransform newState }

/-- The pad entry `{ frequency: 0, duration_ms: 0 }` used by `exportState`
(catears-store.ts line 249); it carries no `volume` key. -/
def padNote : Note := { frequency := 0, duration_ms := 0, volume := none }

/-- The notes array built by `exportState` for a Chiptune mode
(catears-store.ts lines 247-250):
`[...notes, ...Array(64 - notes.length).fill(pad)].slice(0, 64)`.
In JavaScript `Array(64 - notes.length)` throws a RangeError when
`notes.length > 64` (negative array length), so that case is modelled as
`none`; otherwise the notes are padded to exactly 64 entries. -/
def exportChiptuneNotes (notes : List Note) : Option (List Note) :=
  if notes.length ≤ 64 then
    some ((notes ++ List.replicate (64 - notes.length) padNote).take 64)
  else
    none

/-- The structured wire document built by `exportState`
(catears-store.ts lines 234-259) before `JSON.stringify`: servos and lights
are passed through verbatim, and a Chiptune speakers mode has its notes
array padded to 64 entries. `none` models the thrown RangeError. -/
def exportStateModel (state : State) : Option State :=
  match state.speakers.mode with
  | .Chiptune c =>
    match exportChiptuneNotes c.notes with
    | some ns =>
      some { servos := state.servos
             lights := state.lights
             speakers := { mode := .Chiptune { c with notes := ns },
                           volume := state.speakers.volume } }
    | none => none
  | _ =>
    some { servos := state.servos
           lights := state.lights
           speakers := { mode := state.speakers.mode, volume := state.speakers.volume } }

/-- The `exportState` at the store level (catears-store.ts line 234). -/
def exportState (s : CatEarsStore) : Option State :=
  exportStateModel s.state

/-- Extracts the Chiptune payload of an audio mode, when there is one. -/
def chiptuneOf : AudioMode → Option ChiptuneSequence
  | .Chiptune c => some c
  | _ => none

/-- The claims of the JWT session payload inspected by the middleware
(middleware.ts lines 48-54): `payload.username` and `payload.expiresAt` may
each be absent from the verified token. -/
structure SessionPayload where
  username : Option String
  expiresAt : Option Nat
deriving DecidableEq

/-- A cookie value holding a JWT: either one that verifies under the
server secret (yielding its payload) or one that fails `jwtVerify`. -/
inductive JwtToken where
  | valid (p : SessionPayload) : JwtToken
  | invalid : JwtToken
deriving DecidableEq

/-- The `jwtVerify` (middleware.ts line 46), abstracting the signature check:
a token signed with the server secret yields its payload, anything else
raises (modelled as `none`). -/
def jwtVerify : JwtToken → Option SessionPayload
  | .valid p => some p
  | .invalid => none

/-- Character-list prefix test backing `strStartsWith`. -/
def charsStartWith : List Char → List Char → Bool
  | _, [] => true
  | [], _ :: _ => false
  | a :: s, b :: p => a = b && charsStartWith s p

/-- The JavaScript prototype method startsWith, over Lean strings. -/
def strStartsWith (s pre : String) : Bool := charsStartWith s.data pre.data

/-- The fixed protected upload route (middleware.ts line 13). -/
def uploadStatePath : String := "/api/upload-state"

/-- The `PROTECTED_ROUTES` list (middleware.ts lines 12-14). -/
def PROTECTED_ROUTES : List String := [uploadStatePath]

/-- The `PUBLIC_ROUTES` (middleware.ts lines 17-21). -/
def PUBLIC_ROUTES : List String := ["/api/auth/login", "/api/auth/logout", "/api/auth/verify"]

/-- Outcome of the middleware: pass the request on to the route handler
(`NextResponse.next`) or reject it with a 401 JSON response. -/
inductive MwResult where
  | next : MwResult
  | unauthorized : MwResult
deriving DecidableEq

/-- The `middleware` (middleware.ts lines 23-77): public routes pass through;
protected routes require a cookie whose JWT verifies, carries a truthy
`username` and `expiresAt` (in JS an empty string and 0 are falsy), and is
not expired against `Date.now()`; all other routes pass through. -/
def middleware (now : Nat) (pathname : String) (cookie : Option JwtToken) : MwResult :=
  if PUBLIC_ROUTES.any (fun route => strStartsWith pathname route) then
    .next
  else if PROTECTED_ROUTES.any (fun route => strStartsWith pathname route) then
    match cookie with
    | none => .unauthorized
    | some tok =>
      match jwtVerify tok with
      | none => .unauthorized
      | some p =>
        match p.username, p.expiresAt with
        | some u, some e =>
          if u = "" then .unauthorized
          else if e = 0 then .unauthorized
          else if e < now then .unauthorized
          else .next
        | _, _ => .unauthorized
  else
    .next

/-- Sync display status of `StatePreview` (StatePreview.tsx line 32):
`auth_required` is the persisting state shown after a 401, with no
auto-revert timeout. -/
inductive SyncStatus where
  | idle : SyncStatus
  | syncing : SyncStatus
  | success : SyncStatus
  | error : SyncStatus
  | auth_required : SyncStatus
deriving DecidableEq

/-- The whole-system state for the sync pipeline: the Configuration held
by the store, the `isAuthenticated` flag of the auth store consulted by
the `StatePreview` debounce effect, the `StatePreview` debounce timer, the
session cookie held by the browser, whether `GCP_SERVICE_ACCOUNT` is
configured, the content the blob store holds for `ziyadedher/catears.json`,
and the sync display status.
`blobWrites` and `syncScheduled` are history counters recording each
`file.save` call (route.ts line 372) and each `setTimeout` arming of the
auto-sync debounce (StatePreview.tsx line 89). -/
structure SysState where
  config : State
  isAuthenticated : Bool
  pendingSync : Bool
  cookie : Option JwtToken
  gcpConfigured : Bool
  blob : Option State
  blobWrites : Nat
  syncScheduled : Nat
  syncStatus : SyncStatus

/-- Events driving the sync pipeline: a store mutation (any declared store
operation changing `state`), or the pending 500ms debounce timer
firing. There is no login event: the modelled session stays as it is. -/
inductive Ev where
  | mutate (f : State → State) : Ev
  | debounceFire : Ev

/-- A store mutation: the `StatePreview` auto-sync effect runs on every
change of `state` (StatePreview.tsx lines 84-94). It begins with
`if (!isAuthenticated) return;`, so while unauthenticated it arms no timer
(and the cleanup of the previous effect run has already cleared any pending
one); when authenticated it clears any pending timer and arms a fresh
500ms one. -/
def stepMutate (s : SysState) (f : State → State) : SysState :=
  if s.isAuthenticated then
    { s with
      config := f s.config
      pendingSync := true
      syncScheduled := s.syncScheduled + 1 }
  else
    { s with config := f s.config, pendingSync := false }

/-- The `POST /api/upload-state` handler body (route.ts lines 346-415),
reached only when the middleware passed the request through: with GCS
credentials configured it saves the JSON body to the blob and answers 200;
without them it throws before any write and answers 500. -/
def uploadStateHandler (body : State) (s : SysState) : SysState :=
  if s.gcpConfigured then
    { s with blob := some body, blobWrites := s.blobWrites + 1, syncStatus := .success }
  else
    { s with syncStatus := .error }

/-- The debounce timer firing: `syncToCloud` (StatePreview.tsx lines
45-81) exports the state (which can throw, see `exportChiptuneNotes`) and
POSTs it to `/api/upload-state`. A 401 response (the middleware rejection)
is handled specially (lines 60-66): the status becomes `auth_required`,
which persists with no auto-revert; any other failure lands in the catch
block as the transient `error` status. -/
def stepFire (now : Nat) (s : SysState) : SysState :=
  if s.pendingSync then
    let s' := { s with pendingSync := false }
    match exportStateModel s.config with
    | none => { s' with syncStatus := .error }
    | some wire =>
      match middleware now uploadStatePath s.cookie with
      | .next => uploadStateHandler wire s'
      | .unauthorized => { s' with syncStatus := .auth_required }
  else s

/-- One event step of the sync pipeline. -/
def step (now : Nat) (s : SysState) : Ev → SysState
  | .mutate f => stepMutate s f
  | .debounceFire => stepFire now s

/-- Runs a sequence of events through the sync pipeline. -/
def run (now : Nat) (evs : List Ev) (s : SysState) : SysState :=
  evs.foldl (step now) s

/-- A freshly loaded, never-authenticated dashboard session: default
Configuration, auth store flag false, no pending timer, no session cookie,
blob never written. -/
def unauthStart : SysState :=
  { config := createDefaultState
    isAuthenticated := false
    pendingSync := false
    cookie := none
    gcpConfigured := true
    blob := none
    blobWrites := 0
    syncScheduled := 0
    syncStatus := .idle }

/-- A sample meaningful note used to build concrete Chiptune inputs. -/
def testNote : Note := { frequency := 440, duration_ms := 100, volume := some 100 }

/-- A Configuration whose speakers mode is Chiptune with `k` notes and a
matching declared `length` of `k`. -/
def chiptuneState (k : Nat) : State :=
  { createDefaultState with
    speakers := { mode := .Chiptune { notes := List.replicate k testNote, length := k,
                                      default_volume := 100, looping := false },
                  volume := 128 } }

/-- C1: evaluating `exportState` on Chiptune Configurations with 0, 3 and 70
notes. With 0 or 3 notes the exported notes array has exactly 64 entries,
as the claim states; with 70 notes the export fails (`none`, modelling the
RangeError thrown by `Array(64 - 70)`), so the export does not truncate to
64 and the never-fails part of the claim does not hold on the code. -/
theorem c1_chiptune_export_eval :
    (exportStateModel (chiptuneState 0)).map
        (fun w => (chiptuneOf w.speakers.mode).map (fun c => c.notes.length)) = some (some 64)
  ∧ (exportStateModel (chiptuneState 3)).map
        (fun w => (chiptuneOf w.speakers.mode).map (fun c => c.notes.length)) = some (some 64)
  ∧ exportStateModel (chiptuneState 70) = none :=
  ⟨by decide, by decide, by decide⟩

/-- Defence in depth at the server: even if a debounce fired while the
browser holds no session cookie, the middleware 401 rejection would stop
the request before the handler performs any blob write. -/
theorem stepFire_unauth_no_write (now : Nat) (s : SysState) (h : s.cookie = none) :
    (stepFire now s).blobWrites = s.blobWrites ∧ (stepFire now s).blob = s.blob := by
  unfold stepFire
  split
  · rw [h]
    cases hx : exportStateModel s.config with
    | none => exact ⟨rfl, rfl⟩
    | some w =>
      rw [show middleware now uploadStatePath none = MwResult.unauthorized from rfl]
      exact ⟨rfl, rfl⟩
  · exact ⟨rfl, rfl⟩

/-- While the auth store flag is false and no debounce timer is pending, a
single event arms no timer, schedules no sync, and writes no blob. -/
theorem step_unauth_inert (now : Nat) (s : SysState) (e : Ev)
    (hauth : s.isAuthenticated = false) (hp : s.pendingSync = false) :
    (step now s e).isAuthenticated = false
  ∧ (step now s e).pendingSync = false
  ∧ (step now s e).syncScheduled = s.syncScheduled
  ∧ (step now s e).blobWrites = s.blobWrites
  ∧ (step now s e).blob = s.blob := by
  cases e with
  | mutate f =>
    have hm : step now s (Ev.mutate f)
        = { s with config := f s.config, pendingSync := false } := by
      show stepMutate s f = _
      unfold stepMutate
      rw [hauth]
      rfl
    rw [hm]
    exact ⟨hauth, rfl, rfl, rfl, rfl⟩
  | debounceFire =>
    have hf : step now s Ev.debounceFire = s := by
      show stepFire now s = s
      unfold stepFire
      rw [hp]
      rfl
    rw [hf]
    exact ⟨hauth, hp, rfl, rfl, rfl⟩

/-- C2: while the session is unauthenticated (the auth store flag is false,
and hence no debounce timer is pending — the gated effect cleared it), no
automatic sync is ever scheduled — the auto-sync effect returns before
arming its timer — and the Sync Controller never issues a write call to
the Blob Store, no matter how many Configuration mutations (or timer
firings) occur. -/
theorem c2_unauth_no_sync_no_write (now : Nat) (evs : List Ev) (s : SysState)
    (hauth : s.isAuthenticated = false) (hp : s.pendingSync = false) :
    (run now evs s).syncScheduled = s.syncScheduled
  ∧ (run now evs s).pendingSync = false
  ∧ (run now evs s).blobWrites = s.blobWrites
  ∧ (run now evs s).blob = s.blob := by
  induction evs generalizing s with
  | nil => exact ⟨rfl, hp, rfl, rfl⟩
  | cons e evs ih =>
    obtain ⟨h1, h2, h3, h4, h5⟩ := step_unauth_inert now s e hauth hp
    obtain ⟨g1, g2, g3, g4⟩ := ih (step now s e) h1 h2
    exact ⟨g1.trans h3, g2, g3.trans h4, g4.trans h5⟩

/-- C2 witness: a concrete unauthenticated trace of two mutations around a
debounce-firing opportunity schedules nothing and writes nothing. -/
theorem c2_unauth_no_sync_no_write_witness :
    (run 0 [Ev.mutate (fun st => st), Ev.debounceFire, Ev.mutate (fun st => st)]
        unauthStart).syncScheduled = unauthStart.syncScheduled
  ∧ (run 0 [Ev.mutate (fun st => st), Ev.debounceFire, Ev.mutate (fun st => st)]
        unauthStart).pendingSync = false
  ∧ (run 0 [Ev.mutate (fun st => st), Ev.debounceFire, Ev.mutate (fun st => st)]
        unauthStart).blobWrites = unauthStart.blobWrites
  ∧ (run 0 [Ev.mutate (fun st => st), Ev.debounceFire, Ev.mutate (fun st => st)]
        unauthStart).blob = unauthStart.blob :=
  c2_unauth_no_sync_no_write 0
    [Ev.mutate (fun st => st), Ev.debounceFire, Ev.mutate (fun st => st)] unauthStart rfl rfl

/-- C3 counterexample: exporting the default Configuration succeeds and
yields it verbatim, and its servo values are the bare numbers 125 — not
single-key tagged variant objects — refuting "exporting the default
Configuration yields tagged servo values". -/
theorem c3_default_export_untagged :
    exportStateModel createDefaultState = some createDefaultState
  ∧ isTaggedServo createDefaultState.servos.left = false
  ∧ isTaggedServo createDefaultState.servos.right = false :=
  ⟨by decide, rfl, rfl⟩

/-- C3 (amended): `exportState` passes servo values through verbatim, so a
servo side is a tagged object in the wire JSON exactly when the store holds
a tagged object for it; the default Configuration holds bare numbers. -/
theorem c3_export_servos_verbatim (st w : State) (h : exportStateModel st = some w) :
    w.servos = st.servos := by
  obtain ⟨sv, li, mo, vol⟩ := st
  cases mo with
  | Chiptune c =>
    simp only [exportStateModel] at h
    cases hn : exportChiptuneNotes c.notes with
    | none => rw [hn] at h; exact Option.noConfusion h
    | some ns =>
      rw [hn] at h
      cases h
      rfl
  | Silent => simp only [exportStateModel] at h; cases h; rfl
  | Tone n => simp only [exportStateModel] at h; cases h; rfl
  | Audio a => simp only [exportStateModel] at h; cases h; rfl

/-- The wire document exported from the 3-note Chiptune Configuration. -/
def wire3 : State := (exportStateModel (chiptuneState 3)).getD createDefaultState

/-- C3 witness: the 3-note Chiptune export keeps the servos verbatim. -/
theorem c3_export_servos_verbatim_witness : wire3.servos = (chiptuneState 3).servos :=
  c3_export_servos_verbatim (chiptuneState 3) wire3 (by decide)

/-- C4: for a valid Configuration whose Chiptune notes array has exactly
`N = length ≤ 64` entries, loading the parsed output of `exportState`
reconstructs the servo and light fields identically, reconstructs exactly
the first `N` notes (the Chiptune payload comes back equal to the
original, padding discarded), and keeps the speakers volume. -/
theorem c4_round_trip (st : State) (c : ChiptuneSequence)
    (hm : st.speakers.mode = .Chiptune c)
    (hN : c.notes.length = c.length)
    (hle : c.length ≤ 64) :
    ∃ wire, exportStateModel st = some wire
      ∧ (loadStateTransform wire).servos = st.servos
      ∧ (loadStateTransform wire).lights = st.lights
      ∧ (loadStateTransform wire).speakers.mode = .Chiptune c
      ∧ (loadStateTransform wire).speakers.volume = st.speakers.volume := by
  have hle' : c.notes.length ≤ 64 := hN ▸ hle
  have hnotes : exportChiptuneNotes c.notes
      = some ((c.notes ++ List.replicate (64 - c.notes.length) padNote).take 64) := by
    unfold exportChiptuneNotes
    rw [if_pos hle']
  have htake : ((c.notes ++ List.replicate (64 - c.notes.length) padNote).take 64).take c.length
      = c.notes := by
    rw [List.take_take, min_eq_left hle, ← hN, List.take_left]
  refine ⟨{ servos := st.servos, lights := st.lights,
            speakers :=
              { mode := AudioMode.Chiptune
                  ⟨(c.notes ++ List.replicate (64 - c.notes.length) padNote).take 64,
                   c.length, c.default_volume, c.looping⟩,
                volume := st.speakers.volume } }, ?_, rfl, rfl, ?_, rfl⟩
  · obtain ⟨sv, li, mo, vol⟩ := st
    simp only at hm
    subst hm
    simp only [exportStateModel, hnotes]
  · show AudioMode.Chiptune _ = _
    rw [htake]

/-- C4 witness: the round trip at a concrete 2-note Chiptune Configuration. -/
theorem c4_round_trip_witness :
    ∃ wire, exportStateModel (chiptuneState 2) = some wire
      ∧ (loadStateTransform wire).servos = (chiptuneState 2).servos
      ∧ (loadStateTransform wire).lights = (chiptuneState 2).lights
      ∧ (loadStateTransform wire).speakers.mode
          = .Chiptune { notes := List.replicate 2 testNote, length := 2,
                        default_volume := 100, looping := false }
      ∧ (loadStateTransform wire).speakers.volume = (chiptuneState 2).speakers.volume :=
  c4_round_trip (chiptuneState 2)
    { notes := List.replicate 2 testNote, length := 2, default_volume := 100, looping := false }
    rfl rfl (by decide)

/-- A Configuration whose Chiptune declares `length = 1` over an empty
notes array: a malformed length of the kind the claim says is normalized. -/
def c5Input : State :=
  { createDefaultState with
    speakers := { mode := .Chiptune { notes := [], length := 1,
                                      default_volume := 100, looping := false },
                  volume := 128 } }

/-- C5 counterexample: loading a Chiptune whose notes array (0 entries) is
shorter than its declared `length` (1) leaves the notes array at 0 entries —
`loadState` only truncates (`slice(0, length)`) and never pads, so the
result does not have exactly the declared `length` entries. -/
theorem c5_load_no_padding :
    chiptuneOf ((loadState initialStore c5Input).state.speakers.mode)
      = some { notes := [], length := 1, default_volume := 100, looping := false }
  ∧ ([] : List Note).length ≠ 1 :=
  ⟨by decide, by decide⟩

/-- C5 (amended): for every input whose speakers mode is Chiptune,
`loadState` replaces the Configuration with the notes array truncated to
the first `length` entries — so the result has `min(notes.length, length)`
entries, inputs shorter than `length` staying unpadded — and, being a total
function, it never fails on malformed lengths. -/
theorem c5_load_truncates (s : CatEarsStore) (input : State) (c : ChiptuneSequence)
    (hm : input.speakers.mode = .Chiptune c) :
    (loadState s input).state
      = { input with
          speakers :=
            { input.speakers with
              mode := AudioMode.Chiptune
                ⟨c.notes.take c.length, c.length, c.default_volume, c.looping⟩ } } := by
  obtain ⟨sv, li, mo, vol⟩ := input
  simp only at hm
  subst hm
  rfl

/-- C5 witness: the truncation behaviour at the concrete malformed input. -/
theorem c5_load_truncates_witness :
    (loadState initialStore c5Input).state
      = { c5Input with
          speakers :=
            { c5Input.speakers with
              mode := AudioMode.Chiptune ⟨([] : List Note).take 1, 1, 100, false⟩ } } :=
  c5_load_truncates initialStore c5Input
    { notes := [], length := 1, default_volume := 100, looping := false } rfl

/-- C6: with selection `left`, `setServoMode m` updates only `servos.left`;
with `right`, only `servos.right`; with `both`, both sides — every other
Configuration field, the selection and the backup slots are untouched —
and the same holds for `setLightMode` over the light sides. -/
theorem c6_selection_isolation :
    (∀ (cfg : State) (lb rb : Option EarBackup) (m : ServoValue),
      setServoMode ⟨cfg, .left, lb, rb⟩ m
        = ⟨{ cfg with servos := { cfg.servos with left := m } }, .left, lb, rb⟩)
  ∧ (∀ (cfg : State) (lb rb : Option EarBackup) (m : ServoValue),
      setServoMode ⟨cfg, .right, lb, rb⟩ m
        = ⟨{ cfg with servos := { cfg.servos with right := m } }, .right, lb, rb⟩)
  ∧ (∀ (cfg : State) (lb rb : Option EarBackup) (m : ServoValue),
      setServoMode ⟨cfg, .both, lb, rb⟩ m
        = ⟨{ cfg with servos := { left := m, right := m } }, .both, lb, rb⟩)
  ∧ (∀ (cfg : State) (lb rb : Option EarBackup) (m : LightMode),
      setLightMode ⟨cfg, .left, lb, rb⟩ m
        = ⟨{ cfg with lights := { cfg.lights with left := m } }, .left, lb, rb⟩)
  ∧ (∀ (cfg : State) (lb rb : Option EarBackup) (m : LightMode),
      setLightMode ⟨cfg, .right, lb, rb⟩ m
        = ⟨{ cfg with lights := { cfg.lights with right := m } }, .right, lb, rb⟩)
  ∧ (∀ (cfg : State) (lb rb : Option EarBackup) (m : LightMode),
      setLightMode ⟨cfg, .both, lb, rb⟩ m
        = ⟨{ cfg with lights := { cfg.lights with left := m, right := m } }, .both, lb, rb⟩) :=
  by refine ⟨?_, ?_, ?_, ?_, ?_, ?_⟩ <;> (intro cfg lb rb m; rfl)

/-- C7: `syncToBothEars` copies the servo and light values of the selected
individual side onto both sides (those of the left side when selection is
`both`),
and leaves speakers, volume and brightness — indeed every other field of
the store — unchanged. -/
theorem c7_sync_to_both :
    (∀ (cfg : State) (lb rb : Option EarBackup),
      syncToBothEars ⟨cfg, .left, lb, rb⟩
        = ⟨{ cfg with
              servos := { left := cfg.servos.left, right := cfg.servos.left },
              lights := { cfg.lights with left := cfg.lights.left, right := cfg.lights.left } },
            .left, lb, rb⟩)
  ∧ (∀ (cfg : State) (lb rb : Option EarBackup),
      syncToBothEars ⟨cfg, .right, lb, rb⟩
        = ⟨{ cfg with
              servos := { left := cfg.servos.right, right := cfg.servos.right },
              lights := { cfg.lights with left := cfg.lights.right, right := cfg.lights.right } },
            .right, lb, rb⟩)
  ∧ (∀ (cfg : State) (lb rb : Option EarBackup),
      syncToBothEars ⟨cfg, .both, lb, rb⟩
        = ⟨{ cfg with
              servos := { left := cfg.servos.left, right := cfg.servos.left },
              lights := { cfg.lights with left := cfg.lights.left, right := cfg.lights.left } },
            .both, lb, rb⟩) :=
  by refine ⟨?_, ?_, ?_⟩ <;> (intro cfg lb rb; rfl)

/-- C8: moving selection from `both` to an individual side snapshots both
the servo and light values of both sides into the backup slots exactly;
moving between
individual sides, or to `both` from anywhere, leaves the backup slots (and
everything else but the selection) untouched. -/
theorem c8_backup_capture :
    (∀ (cfg : State) (lb rb : Option EarBackup),
      setEarSelection ⟨cfg, .both, lb, rb⟩ .left
        = ⟨cfg, .left,
            some ⟨cfg.servos.left, cfg.lights.left⟩,
            some ⟨cfg.servos.right, cfg.lights.right⟩⟩)
  ∧ (∀ (cfg : State) (lb rb : Option EarBackup),
      setEarSelection ⟨cfg, .both, lb, rb⟩ .right
        = ⟨cfg, .right,
            some ⟨cfg.servos.left, cfg.lights.left⟩,
            some ⟨cfg.servos.right, cfg.lights.right⟩⟩)
  ∧ (∀ (cfg : State) (lb rb : Option EarBackup),
      setEarSelection ⟨cfg, .left, lb, rb⟩ .right = ⟨cfg, .right, lb, rb⟩)
  ∧ (∀ (cfg : State) (lb rb : Option EarBackup),
      setEarSelection ⟨cfg, .right, lb, rb⟩ .left = ⟨cfg, .left, lb, rb⟩)
  ∧ (∀ (cfg : State) (lb rb : Option EarBackup),
      setEarSelection ⟨cfg, .left, lb, rb⟩ .both = ⟨cfg, .both, lb, rb⟩)
  ∧ (∀ (cfg : State) (lb rb : Option EarBackup),
      setEarSelection ⟨cfg, .right, lb, rb⟩ .both = ⟨cfg, .both, lb, rb⟩)
  ∧ (∀ (cfg : State) (lb rb : Option EarBackup),
      setEarSelection ⟨cfg, .both, lb, rb⟩ .both = ⟨cfg, .both, lb, rb⟩) :=
  by refine ⟨?_, ?_, ?_, ?_, ?_, ?_, ?_⟩ <;> (intro cfg lb rb; rfl)

/-- A five-entry leds array, shorter than the 12 the invariant demands. -/
def fiveLeds : List RGB8 := List.replicate 5 { r := 1, g := 2, b := 3 }

/-- A Configuration whose left light is a Custom mode with only 5 leds. -/
def c9Input : State :=
  { createDefaultState with
    lights := { createDefaultState.lights with
                left := .Custom { leds := fiveLeds, looping := false } } }

/-- C9 counterexample: after `loadState` on a Configuration whose Custom
light mode has a 5-entry leds array, the leds array still has 5 entries —
`loadState` performs no normalization on light modes at all. -/
theorem c9_load_leds_not_normalized :
    (loadState initialStore c9Input).state.lights.left
      = LightMode.Custom { leds := fiveLeds, looping := false }
  ∧ fiveLeds.length ≠ 12 :=
  ⟨by decide, by decide⟩

/-- C9 (amended): `loadState` passes the lights field through unchanged, so
a Custom light mode keeps its input leds array as-is — the exactly-12
invariant is not enforced (neither padding nor truncation) on load. -/
theorem c9_load_lights_verbatim (s : CatEarsStore) (input : State) :
    (loadState s input).state.lights = input.lights := rfl

/-- C10: `setEarSelection` never changes the Configuration: for every store
state and target selection the `state` field (servos, lights and speakers)
is left exactly as it was; only the selection and possibly the backup slots
change, and backups are never restored into the Configuration. -/
theorem c10_selection_preserves_config (s : CatEarsStore) (t : EarSelection) :
    (setEarSelection s t).state = s.state := by
  unfold setEarSelection
  split <;> rfl
